import Mathlib

/-!
Shallow embedding of the EasyADSB flight logger (src/logger/app.py) and
verification of its specification claims.

Modelling conventions:
* Timestamps are integer epoch seconds (SQLite DATETIME values compare
  chronologically; one day = 86400 seconds, one hour = 3600 seconds).
* Numeric vendor fields (lat, lon, altitudes, rates, speed, rssi) are
  modelled as `Int`; none of the verified behaviour depends on fractional
  values, only on presence, propagation and order comparisons.
* A JSON field that may be missing is an `Option`; Python falsiness of
  `None`, `0` and `""` is modelled explicitly where the code relies on it
  (the `or` fallbacks and the `if ac.get('flight')` guard).
* The SQLite `positions` table is a `List Row` in insertion order.
-/

namespace EasyADSB

/-- One element of the `aircraft` array fetched from ultrafeeder, with the
vendor fields that `save_aircraft` reads.  A `none` field is absent from the
JSON record. -/
structure Aircraft where
  hex : Option String := none
  flight : Option String := none
  lat : Option Int := none
  lon : Option Int := none
  alt_baro : Option Int := none
  alt_geom : Option Int := none
  gs : Option Int := none
  track : Option Int := none
  baro_rate : Option Int := none
  geom_rate : Option Int := none
  squawk : Option String := none
  category : Option String := none
  t : Option String := none
  rssi : Option Int := none
  deriving DecidableEq, Repr

/-- A row of the `positions` table.  `icao` is `TEXT NOT NULL` and the INSERT
always supplies a string (`ac.get('hex', '').upper()`), so it is a plain
`String`; every other inserted column is nullable. -/
structure Row where
  timestamp : Int
  icao : String
  callsign : Option String
  lat : Int
  lon : Int
  altitude : Option Int
  speed : Option Int
  track : Option Int
  vert_rate : Option Int
  squawk : Option String
  category : Option String
  aircraft_type : Option String
  rssi : Option Int
  deriving DecidableEq, Repr

/-- Python `x or y` on two optional integers: falls through to `y` when `x`
is `None` or `0` (both falsy in Python). -/
def pyOr (x y : Option Int) : Option Int :=
  match x with
  | none => y
  | some n => if n = 0 then y else some n

/-- Python `str.upper()`, character by character (the icao fields at play are
ASCII hex strings, on which Python and Lean uppercasing agree). -/
def strUpper (s : String) : String :=
  String.mk (s.data.map Char.toUpper)

/-- Python truthiness of an optional string: `None` and `""` are falsy. -/
def pyTruthy (s : Option String) : Bool :=
  match s with
  | none => false
  | some v => v ≠ ""

/-- Model of `ac.get('flight', '').strip() if ac.get('flight') else None`. -/
def callsignOf (flight : Option String) : Option String :=
  if pyTruthy flight then some (flight.getD "").trim else none

/-- The row built by the INSERT body of `save_aircraft` for one aircraft
record (the loop only reaches it when `lat` and `lon` are present; the
`getD 0` defaults are never exercised under that guard).  `timestamp` takes
the SQLite `DEFAULT CURRENT_TIMESTAMP`, i.e. the insertion instant `now`. -/
def rowOf (now : Int) (ac : Aircraft) : Row :=
  { timestamp := now
    icao := strUpper (ac.hex.getD "")
    callsign := callsignOf ac.flight
    lat := ac.lat.getD 0
    lon := ac.lon.getD 0
    altitude := pyOr ac.alt_baro ac.alt_geom
    speed := ac.gs
    track := ac.track
    vert_rate := pyOr ac.baro_rate ac.geom_rate
    squawk := ac.squawk
    category := ac.category
    aircraft_type := ac.t
    rssi := ac.rssi }

/-- The record has both a `lat` and a `lon` key (the loop's skip guard). -/
def hasPos (ac : Aircraft) : Bool :=
  ac.lat.isSome && ac.lon.isSome

/-- Model of `save_aircraft(aircraft_list)` at instant `now`: the list of rows it
inserts, in order, and the count it returns.  Mirrors the loop: records
without `lat` or `lon` are skipped, every other record is inserted and
counted. -/
def save_aircraft (now : Int) : List Aircraft → List Row × Nat
  | [] => ([], 0)
  | ac :: rest =>
    let r := save_aircraft now rest
    if hasPos ac then (rowOf now ac :: r.1, r.2 + 1) else r

/-- In-process logger state touched by ingestion and the clear endpoint:
the `positions` table and the `total_logged` global counter. -/
structure LoggerState where
  db : List Row
  total_logged : Nat
  deriving DecidableEq, Repr

/-- Model of `save_aircraft` at the state level: appends the inserted rows to the
table and adds the count to `total_logged` (the `total_logged += count`
line). -/
def save_aircraft_state (now : Int) (acs : List Aircraft) (st : LoggerState) :
    LoggerState × Nat :=
  let r := save_aircraft now acs
  ({ db := st.db ++ r.1, total_logged := st.total_logged + r.2 }, r.2)

/-- Model of `POST /api/clear`: `DELETE FROM positions` (every row, no WHERE clause)
followed by `total_logged = 0`.  The VACUUM is storage reclamation with no
observable effect on the data model. -/
def api_clear (_st : LoggerState) : LoggerState :=
  { db := [], total_logged := 0 }

/-- Seconds in one day (`timedelta(days=n)` = `n * 86400` seconds). -/
def daySeconds : Int := 86400

/-- Model of `cleanup_old_records()` with retention `rd` at instant `now`: returns the
surviving table and the count it reports.  The code returns 0 and touches
nothing when `LOG_RETENTION_DAYS <= 0`; otherwise it counts and then deletes
the rows with `timestamp < now - rd days`. -/
def cleanup_old_records (rd now : Int) (db : List Row) : List Row × Nat :=
  if rd ≤ 0 then (db, 0)
  else
    let cutoff := now - rd * daySeconds
    (db.filter (fun r => !decide (r.timestamp < cutoff)),
     (db.filter (fun r => decide (r.timestamp < cutoff))).length)

/-- The mutable runtime settings (`LOG_INTERVAL`, `LOG_RETENTION_DAYS`,
`logger_paused`). -/
structure Settings where
  interval : Int
  retention_days : Int
  paused : Bool
  deriving DecidableEq, Repr

/-- Body of a `POST /api/settings` request; a `none` field is absent from the
JSON object. -/
structure SettingsPost where
  interval : Option Int := none
  retention_days : Option Int := none
  deriving DecidableEq, Repr

/-- Model of the `if 'interval' in data` block: an `interval` in `[5, 60]`
is stored, any other requested interval is silently ignored. -/
def applyInterval (s : Settings) (i? : Option Int) : Settings :=
  match i? with
  | some i => if 5 ≤ i ∧ i ≤ 60 then { s with interval := i } else s
  | none => s

/-- Model of the `if 'retention_days' in data` block: a requested retention
of at least 0 is stored, a negative one is silently ignored. -/
def applyRetention (s : Settings) (r? : Option Int) : Settings :=
  match r? with
  | some r => if 0 ≤ r then { s with retention_days := r } else s
  | none => s

/-- The state transition of `POST /api/settings`. -/
def api_settings_post (s : Settings) (d : SettingsPost) : Settings :=
  applyRetention (applyInterval s d.interval) d.retention_days

/-- Model of `GET /api/settings`: returns the current interval, retention and paused
flag verbatim. -/
def api_settings_get (s : Settings) : Settings := s

/-- Outcome of an attempt to write a persisted config document (the
`open`/`json.dump` calls which may raise). -/
inductive WriteOutcome where
  | ok
  | ioError
  deriving DecidableEq, Repr

/-- Model of `save_user_config(config)`: returns `True` on success; an exception is
caught, logged, and turned into `False`. -/
def save_user_config (w : WriteOutcome) : Bool :=
  match w with
  | .ok => true
  | .ioError => false

/-- Model of `save_config()`: an exception is caught and logged; the function returns
nothing either way, so its caller cannot observe the failure. -/
def save_config (_w : WriteOutcome) : Unit := ()

/-- The HTTP-visible outcome of a mutating endpoint: the JSON `success` flag
and the status code. -/
structure HttpReply where
  success : Bool
  status : Nat
  deriving DecidableEq, Repr

/-- Model of `POST /api/settings` end to end: applies the update, calls
`save_config()` (whose write outcome `w` it cannot observe), and always
replies `{'success': True}` with status 200. -/
def api_settings_post_reply (s : Settings) (d : SettingsPost) (w : WriteOutcome) :
    Settings × HttpReply :=
  let s' := api_settings_post s d
  let _ := save_config w
  (s', { success := true, status := 200 })

/-- Model of `POST /api/userconfig`: a missing body is a 400 client error; otherwise
the merged document is written and the reply reports the write outcome
(200/success on `True` from `save_user_config`, 500/failure on `False`). -/
def api_userconfig_post (hasData : Bool) (w : WriteOutcome) : HttpReply :=
  if !hasData then { success := false, status := 400 }
  else if save_user_config w then { success := true, status := 200 }
  else { success := false, status := 500 }

/-- One point of the JSON produced by `GET /api/trace/<icao>`. -/
structure TracePoint where
  timestamp : Int
  lat : Int
  lon : Int
  altitude : Option Int
  speed : Option Int
  track : Option Int
  deriving DecidableEq, Repr

/-- The columns `api_trace` selects from a row. -/
def tracePointOf (r : Row) : TracePoint :=
  { timestamp := r.timestamp, lat := r.lat, lon := r.lon,
    altitude := r.altitude, speed := r.speed, track := r.track }

/-- The optional inclusive bounds `timestamp >= start` / `timestamp <= end`
appended to the trace query. -/
def boundsOk (start stop : Option Int) (t : Int) : Bool :=
  (match start with | none => true | some a => decide (a ≤ t)) &&
  (match stop with | none => true | some b => decide (t ≤ b))

/-- Comparison used by `ORDER BY timestamp` (ascending) on rows. -/
def rowTimeLe (a b : Row) : Prop := a.timestamp ≤ b.timestamp

instance : DecidableRel rowTimeLe := fun a b => Int.decLe a.timestamp b.timestamp

instance : IsTotal Row rowTimeLe := ⟨fun a b => Int.le_total a.timestamp b.timestamp⟩

instance : IsTrans Row rowTimeLe := ⟨fun _ _ _ h1 h2 => le_trans h1 h2⟩

/-- Model of `GET /api/trace/<icao>`: the rows whose stored `icao` equals the
uppercased path parameter, inside the optional inclusive time bounds,
ordered by timestamp ascending, projected to the trace columns. -/
def api_trace (icao : String) (start stop : Option Int) (db : List Row) :
    List TracePoint :=
  ((db.filter (fun r => r.icao == strUpper icao && boundsOk start stop r.timestamp)).insertionSort
    rowTimeLe).map tracePointOf

/-- One element of the JSON produced by `GET /api/recent`. -/
structure RecentRow where
  icao : String
  callsign : Option String
  lat : Int
  lon : Int
  altitude : Option Int
  last_seen : Int
  positions : Nat
  deriving DecidableEq, Repr

/-- Rows inside the trailing one-hour window (`timestamp >= now - 1 hour`). -/
def windowRows (now : Int) (db : List Row) : List Row :=
  db.filter (fun r => decide (now - 3600 ≤ r.timestamp))

/-- SQL `MAX` over a non-nullable integer column of a group (groups are
nonempty by construction, so the `getD` default is never exercised). -/
def sqlMaxInt (l : List Int) : Int := (l.max?).getD 0

/-- SQL `MAX` over a nullable integer column: NULLs are ignored and the
result is NULL only when every value is. -/
def sqlMaxOpt (l : List (Option Int)) : Option Int := (l.filterMap id).max?

/-- The aggregate row the recent query produces for one `icao` group: SQLite
computes `MAX(lat)`, `MAX(lon)`, `MAX(altitude)`, `MAX(timestamp)` and
`COUNT(*)` over the group; the bare `callsign` column comes from an
unspecified row of the group, modelled here as the first. -/
def aggFor (icao : String) (rows : List Row) : RecentRow :=
  let g := rows.filter (fun r => r.icao == icao)
  { icao := icao
    callsign := g.head?.bind Row.callsign
    lat := sqlMaxInt (g.map Row.lat)
    lon := sqlMaxInt (g.map Row.lon)
    altitude := sqlMaxOpt (g.map Row.altitude)
    last_seen := sqlMaxInt (g.map Row.timestamp)
    positions := g.length }

/-- Comparison used by `ORDER BY last_seen DESC` on aggregate rows. -/
def recentGe (a b : RecentRow) : Prop := b.last_seen ≤ a.last_seen

instance : DecidableRel recentGe := fun a b => Int.decLe b.last_seen a.last_seen

instance : IsTotal RecentRow recentGe := ⟨fun a b => Int.le_total b.last_seen a.last_seen⟩

instance : IsTrans RecentRow recentGe := ⟨fun _ _ _ h1 h2 => le_trans h2 h1⟩

/-- Model of `GET /api/recent` at instant `now`: groups the rows of the trailing hour
by `icao`, aggregates each group, orders by last-seen descending and keeps at
most 50 rows. -/
def api_recent (now : Int) (db : List Row) : List RecentRow :=
  let w := windowRows now db
  let icaos := (w.map Row.icao).dedup
  ((icaos.map (fun i => aggFor i w)).insertionSort recentGe).take 50

/-! ## Shared lemmas -/

/-- Closed form of `save_aircraft`: it inserts exactly one `rowOf` row per
record passing the `lat`/`lon` guard, in input order, and returns their
number. -/
theorem save_aircraft_eq (now : Int) (acs : List Aircraft) :
    save_aircraft now acs =
      ((acs.filter hasPos).map (rowOf now), (acs.filter hasPos).length) := by
  induction acs with
  | nil => rfl
  | cons ac rest ih =>
    by_cases hp : hasPos ac = true
    · simp [save_aircraft, hp, List.filter_cons, ih]
    · simp [save_aircraft, hp, List.filter_cons, ih]

/-- A filter and its complement partition a list's length. -/
theorem filter_length_split {α : Type} (p : α → Bool) (l : List α) :
    (l.filter p).length + (l.filter (fun a => !p a)).length = l.length := by
  induction l with
  | nil => rfl
  | cons a l ih =>
    by_cases h : p a = true <;> simp [List.filter_cons, h] <;> omega

/-- Changing the retention field never touches the stored interval. -/
theorem applyRetention_interval (s : Settings) (r? : Option Int) :
    (applyRetention s r?).interval = s.interval := by
  cases r? with
  | none => rfl
  | some r => by_cases h : (0:Int) ≤ r <;> simp [applyRetention, h]

/-! ## Claims -/

/-- C1: for every ingested list, `save_aircraft` persists no row for a
record missing the `lat` key or the `lon` key, persists exactly one row per
record that has both (in order), and returns exactly the number of rows it
inserted. -/
theorem save_aircraft_rows_and_count (now : Int) (acs : List Aircraft) :
    (save_aircraft now acs).1 = (acs.filter hasPos).map (rowOf now) ∧
    (save_aircraft now acs).2 = (acs.filter hasPos).length ∧
    (save_aircraft now acs).2 = (save_aircraft now acs).1.length := by
  rw [save_aircraft_eq]
  exact ⟨rfl, rfl, (List.length_map _ _).symm⟩

/-- Aircraft record exercising the Python falsiness of `0` and `""`:
`alt_baro` and `baro_rate` present with value zero, `flight` present but
empty. -/
def falsyFieldsAc : Aircraft :=
  { hex := none, flight := some "", lat := some 10, lon := some 20,
    alt_baro := some 0, alt_geom := some 100,
    baro_rate := some 0, geom_rate := some (-64) }

/-- C3 counterexample: for a record whose `alt_baro` and `baro_rate` are
present with value `0` and whose `flight` is present but empty, the inserted
row takes `alt_geom` as altitude and `geom_rate` as vertical rate — though
the claim allows the fallback only when the preferred key is absent — and
stores no callsign though `flight` is not missing. -/
theorem save_aircraft_falsy_fallback_cex :
    ((save_aircraft 0 [falsyFieldsAc]).1.map fun r =>
      (r.altitude, r.vert_rate, r.callsign)) = [(some 100, some (-64), none)] ∧
    falsyFieldsAc.alt_baro = some 0 ∧ falsyFieldsAc.baro_rate = some 0 ∧
    falsyFieldsAc.flight = some "" ∧
    some (100 : Int) ≠ some (0 : Int) ∧ some (-64 : Int) ≠ some (0 : Int) := by
  decide

/-- C3 (amended): for every ingested record with `lat` and `lon` present,
`save_aircraft` inserts the row whose `icao` is the uppercased `hex` field
(defaulting to the empty string), whose `callsign` is the trimmed `flight`
field when `flight` is present and nonempty and is absent otherwise, whose
`altitude` is `alt_baro` unless `alt_baro` is absent or zero (then
`alt_geom`), and whose `vert_rate` is `baro_rate` unless `baro_rate` is
absent or zero (then `geom_rate`). -/
theorem save_aircraft_field_mapping (now : Int) (ac : Aircraft) (la lo : Int)
    (hla : ac.lat = some la) (hlo : ac.lon = some lo) :
    (save_aircraft now [ac]).1 = [rowOf now ac] ∧
    (rowOf now ac).icao = strUpper (ac.hex.getD "") ∧
    (∀ f, ac.flight = some f → f ≠ "" → (rowOf now ac).callsign = some f.trim) ∧
    (ac.flight = none ∨ ac.flight = some "" → (rowOf now ac).callsign = none) ∧
    (∀ a, ac.alt_baro = some a → a ≠ 0 → (rowOf now ac).altitude = some a) ∧
    (ac.alt_baro = none ∨ ac.alt_baro = some 0 → (rowOf now ac).altitude = ac.alt_geom) ∧
    (∀ v, ac.baro_rate = some v → v ≠ 0 → (rowOf now ac).vert_rate = some v) ∧
    (ac.baro_rate = none ∨ ac.baro_rate = some 0 → (rowOf now ac).vert_rate = ac.geom_rate) := by
  refine ⟨?_, rfl, ?_, ?_, ?_, ?_, ?_, ?_⟩
  · simp [save_aircraft_eq, List.filter_cons, hasPos, hla, hlo]
  · intro f hf hne
    simp [rowOf, callsignOf, pyTruthy, hf, hne]
  · rintro (hf | hf) <;> simp [rowOf, callsignOf, pyTruthy, hf]
  · intro a ha hne
    simp [rowOf, pyOr, ha, hne]
  · rintro (ha | ha) <;> simp [rowOf, pyOr, ha]
  · intro v hv hne
    simp [rowOf, pyOr, hv, hne]
  · rintro (hv | hv) <;> simp [rowOf, pyOr, hv]

/-- Aircraft record with ordinary well-formed fields, used to instantiate
the field-mapping claim. -/
def mappedAc : Aircraft :=
  { hex := some "abc123", flight := some " UAL1 ", lat := some 10, lon := some 20,
    alt_baro := some 3500, alt_geom := some 3550,
    baro_rate := some (-64), geom_rate := some 0 }

/-- Witness for the field-mapping claim at a concrete record. -/
theorem save_aircraft_field_mapping_witness :
    (save_aircraft 0 [mappedAc]).1 = [rowOf 0 mappedAc] ∧
    (rowOf 0 mappedAc).icao = strUpper "abc123" ∧
    (rowOf 0 mappedAc).callsign = some " UAL1 ".trim ∧
    (rowOf 0 mappedAc).altitude = some 3500 ∧
    (rowOf 0 mappedAc).vert_rate = some (-64) := by
  have h := save_aircraft_field_mapping 0 mappedAc 10 20 rfl rfl
  exact ⟨h.1, h.2.1, h.2.2.1 " UAL1 " rfl (by decide),
    h.2.2.2.2.1 3500 rfl (by decide), h.2.2.2.2.2.2.1 (-64) rfl (by decide)⟩

/-- Boolean test for an ASCII hexadecimal digit. -/
def isHexChar (c : Char) : Bool :=
  c.isDigit || ('a' ≤ c && c ≤ 'f') || ('A' ≤ c && c ≤ 'F')

/-- Boolean test for a six-hex-digit aircraft identifier (the icao format
the spec describes). -/
def isIcao6 (s : String) : Bool :=
  s.length == 6 && s.data.all isHexChar

/-- C10: a record with `lat` and `lon` but no `hex` key is still inserted,
with the empty string as its stored `icao`; every inserted row's `icao` is
the string `strUpper` of its record's `hex`-or-empty (hence never NULL), but
it need not be a six-hex-digit identifier. -/
theorem save_aircraft_missing_hex (now : Int) (ac : Aircraft) (la lo : Int)
    (hhex : ac.hex = none) (hla : ac.lat = some la) (hlo : ac.lon = some lo) :
    (save_aircraft now [ac]).1 = [rowOf now ac] ∧
    (rowOf now ac).icao = "" ∧
    isIcao6 (rowOf now ac).icao = false ∧
    (∀ acs r, r ∈ (save_aircraft now acs).1 →
      ∃ a ∈ acs, r.icao = strUpper (a.hex.getD "")) := by
  refine ⟨?_, ?_, ?_, ?_⟩
  · simp [save_aircraft_eq, List.filter_cons, hasPos, hla, hlo]
  · simp [rowOf, hhex, strUpper]
  · simp [rowOf, hhex, strUpper, isIcao6]
  · intro acs r hr
    rw [save_aircraft_eq] at hr
    rcases List.mem_map.1 hr with ⟨a, ha, hra⟩
    exact ⟨a, (List.mem_filter.1 ha).1, by rw [← hra]; rfl⟩

/-- Record with a position but no `hex` key. -/
def noHexAc : Aircraft := { lat := some 1, lon := some 2 }

/-- Witness for the missing-hex claim at a concrete record. -/
theorem save_aircraft_missing_hex_witness :
    (save_aircraft 5 [noHexAc]).1 = [rowOf 5 noHexAc] ∧
    (rowOf 5 noHexAc).icao = "" ∧ isIcao6 (rowOf 5 noHexAc).icao = false := by
  have h := save_aircraft_missing_hex 5 noHexAc 1 2 rfl rfl rfl
  exact ⟨h.1, h.2.1, h.2.2.1⟩

/-- C4: with positive retention the sweep keeps exactly the snapshots at
least as new as `now` minus `retention_days` days, and the count it reports
plus the surviving rows account for the whole table (it reports every older
row deleted); with retention 0 the sweep deletes nothing and reports 0. -/
theorem cleanup_old_records_spec (rd now : Int) (db : List Row) :
    (0 < rd →
      (∀ r : Row, r ∈ (cleanup_old_records rd now db).1 ↔
        r ∈ db ∧ now - rd * daySeconds ≤ r.timestamp) ∧
      (cleanup_old_records rd now db).2 +
        (cleanup_old_records rd now db).1.length = db.length) ∧
    (rd = 0 → cleanup_old_records rd now db = (db, 0)) := by
  constructor
  · intro hrd
    have hif : ¬ rd ≤ 0 := by omega
    have hvals : cleanup_old_records rd now db =
        (db.filter (fun r => !decide (r.timestamp < now - rd * daySeconds)),
         (db.filter (fun r => decide (r.timestamp < now - rd * daySeconds))).length) := by
      simp [cleanup_old_records, hif]
    constructor
    · intro r
      rw [hvals]
      simp [List.mem_filter, not_lt]
    · rw [hvals]
      exact filter_length_split _ db
  · intro h0
    simp [cleanup_old_records, h0]

/-- A snapshot 15 days old at sweep instant `1296000`. -/
def oldRow : Row :=
  { timestamp := 0, icao := "A", callsign := none, lat := 0, lon := 0,
    altitude := none, speed := none, track := none, vert_rate := none,
    squawk := none, category := none, aircraft_type := none, rssi := none }

/-- A snapshot 13 days old at sweep instant `1296000`. -/
def newRow : Row := { oldRow with timestamp := 172800 }

/-- Witness for the retention claim: at `retention_days = 14` and
`now = 1296000` (15 days), the 15-day-old snapshot is removed, the
13-day-old one survives, the count accounts for the deletion, and a
`retention_days = 0` sweep is a no-op. -/
theorem cleanup_old_records_spec_witness :
    (oldRow ∈ (cleanup_old_records 14 1296000 [oldRow, newRow]).1 ↔
      oldRow ∈ [oldRow, newRow] ∧ 1296000 - 14 * daySeconds ≤ oldRow.timestamp) ∧
    (newRow ∈ (cleanup_old_records 14 1296000 [oldRow, newRow]).1 ↔
      newRow ∈ [oldRow, newRow] ∧ 1296000 - 14 * daySeconds ≤ newRow.timestamp) ∧
    (cleanup_old_records 14 1296000 [oldRow, newRow]).2 +
      (cleanup_old_records 14 1296000 [oldRow, newRow]).1.length = 2 ∧
    cleanup_old_records 0 1296000 [oldRow, newRow] = ([oldRow, newRow], 0) := by
  have h := cleanup_old_records_spec 14 1296000 [oldRow, newRow]
  have h0 := cleanup_old_records_spec 0 1296000 [oldRow, newRow]
  refine ⟨(h.1 (by decide)).1 oldRow, (h.1 (by decide)).1 newRow, ?_, h0.2 rfl⟩
  have hc := (h.1 (by decide)).2
  simpa using hc

/-- C5: writing settings `{interval: 20, retention_days: 7}` and then
reading settings returns exactly those values; an out-of-range interval
request (below 5 or above 60) is rejected and a subsequent read returns the
previously stored settings unchanged. -/
theorem api_settings_roundtrip (s : Settings) (i : Int) (h : i < 5 ∨ 60 < i) :
    (api_settings_get (api_settings_post s
      { interval := some 20, retention_days := some 7 })).interval = 20 ∧
    (api_settings_get (api_settings_post s
      { interval := some 20, retention_days := some 7 })).retention_days = 7 ∧
    api_settings_get (api_settings_post s { interval := some i }) = s := by
  have hni : ¬ ((5:Int) ≤ i ∧ i ≤ 60) := by omega
  refine ⟨rfl, rfl, ?_⟩
  simp [api_settings_get, api_settings_post, applyInterval, applyRetention, hni]

/-- Witness for the settings round-trip at stored settings `(10, 14)` and
the out-of-range request 100. -/
theorem api_settings_roundtrip_witness :
    (api_settings_get (api_settings_post ⟨10, 14, false⟩
      { interval := some 20, retention_days := some 7 })).interval = 20 ∧
    (api_settings_get (api_settings_post ⟨10, 14, false⟩
      { interval := some 20, retention_days := some 7 })).retention_days = 7 ∧
    api_settings_get (api_settings_post ⟨10, 14, false⟩ { interval := some 100 })
      = ⟨10, 14, false⟩ :=
  api_settings_roundtrip ⟨10, 14, false⟩ 100 (Or.inr (by decide))

/-- C6 counterexample: with a stored interval of 100 (reachable — the
persisted config document and the `LOG_INTERVAL` environment variable are
loaded without validation), a requested interval of 100 is ignored rather
than clamped: the stored interval after the update is 100, outside
`[5, 60]` and different from the clamped value `min 60 (max 5 100) = 60`. -/
theorem api_settings_no_clamp_cex :
    (api_settings_post ⟨100, 14, false⟩ { interval := some 100 }).interval = 100 ∧
    ¬ (5 ≤ (api_settings_post ⟨100, 14, false⟩ { interval := some 100 }).interval ∧
       (api_settings_post ⟨100, 14, false⟩ { interval := some 100 }).interval ≤ 60) ∧
    (api_settings_post ⟨100, 14, false⟩ { interval := some 100 }).interval
      ≠ min 60 (max 5 100) := by
  decide

/-- C6 (amended): a settings update stores an in-range requested interval
and rejects an out-of-range one, leaving the stored interval unchanged
rather than clamping the request; consequently the stored interval lies in
`[5, 60]` after an update whenever it did before. -/
theorem api_settings_interval_update (s : Settings) (d : SettingsPost) :
    (∀ i, d.interval = some i → 5 ≤ i → i ≤ 60 →
      (api_settings_post s d).interval = i) ∧
    (∀ i, d.interval = some i → i < 5 ∨ 60 < i →
      (api_settings_post s d).interval = s.interval) ∧
    (d.interval = none → (api_settings_post s d).interval = s.interval) ∧
    (5 ≤ s.interval → s.interval ≤ 60 →
      5 ≤ (api_settings_post s d).interval ∧
        (api_settings_post s d).interval ≤ 60) := by
  refine ⟨?_, ?_, ?_, ?_⟩
  · intro i hi h5 h60
    rw [api_settings_post, applyRetention_interval, hi]
    simp [applyInterval, h5, h60]
  · intro i hi hout
    have hni : ¬ ((5:Int) ≤ i ∧ i ≤ 60) := by omega
    rw [api_settings_post, applyRetention_interval, hi]
    simp [applyInterval, hni]
  · intro hi
    rw [api_settings_post, applyRetention_interval, hi]
    rfl
  · intro h5 h60
    rw [api_settings_post, applyRetention_interval]
    cases hi : d.interval with
    | none => exact ⟨h5, h60⟩
    | some i =>
      by_cases hin : (5:Int) ≤ i ∧ i ≤ 60
      · simp [applyInterval, hin]
      · simpa [applyInterval, hin] using ⟨h5, h60⟩

/-- Witness for the interval-update claim: stored interval 10, request 100,
interval left at 10. -/
theorem api_settings_interval_update_witness :
    (api_settings_post ⟨10, 14, false⟩ { interval := some 100 }).interval = 10 := by
  have h := api_settings_interval_update ⟨10, 14, false⟩ { interval := some 100 }
  exact h.2.1 100 rfl (Or.inr (by decide))

/-- C8: for every stored state and counter value, the clear operation leaves
the positions table with zero rows and sets the total-logged counter to 0. -/
theorem api_clear_resets (st : LoggerState) :
    (api_clear st).db.length = 0 ∧ (api_clear st).total_logged = 0 :=
  ⟨rfl, rfl⟩

/-- C9 counterexample: a settings update whose persisted-config write fails
still replies success with status 200 — `save_config` swallows the write
error, so the settings endpoint never reports it to the caller. -/
theorem api_settings_write_failure_cex :
    (api_settings_post_reply ⟨10, 14, false⟩
      { interval := some 20, retention_days := some 7 }
      WriteOutcome.ioError).2 = { success := true, status := 200 } :=
  rfl

/-- C9 (amended): a user-config update whose persisted write fails reports
failure to the caller (success `false`, status 500) while the handler still
returns normally; a settings update applies its changes and reports success
with status 200 regardless of the config write outcome, so a settings write
failure is never reported to the caller. -/
theorem config_write_failure_reporting (s : Settings) (d : SettingsPost)
    (w : WriteOutcome) :
    api_userconfig_post true WriteOutcome.ioError
      = { success := false, status := 500 } ∧
    api_userconfig_post true WriteOutcome.ok
      = { success := true, status := 200 } ∧
    (api_settings_post_reply s d w).2 = { success := true, status := 200 } ∧
    (api_settings_post_reply s d w).1 = api_settings_post s d :=
  ⟨rfl, rfl, rfl, rfl⟩

/-- C7: the trace query is case-insensitive in its icao argument — any two
spellings with the same uppercasing give identical results — its output is
ordered by timestamp ascending, and a point is returned exactly for each
stored snapshot whose `icao` equals the uppercased argument and whose
timestamp lies within the optional inclusive start/end bounds. -/
theorem api_trace_spec (s t : String) (hst : strUpper s = strUpper t)
    (start stop : Option Int) (db : List Row) :
    api_trace s start stop db = api_trace t start stop db ∧
    List.Pairwise (fun a b : TracePoint => a.timestamp ≤ b.timestamp)
      (api_trace s start stop db) ∧
    (∀ p, p ∈ api_trace s start stop db ↔
      ∃ r ∈ db, r.icao = strUpper s ∧ boundsOk start stop r.timestamp = true ∧
        p = tracePointOf r) := by
  refine ⟨?_, ?_, ?_⟩
  · rw [api_trace, api_trace, hst]
  · have hs := List.sorted_insertionSort rowTimeLe
      (db.filter (fun r => r.icao == strUpper s && boundsOk start stop r.timestamp))
    exact List.pairwise_map.2 (hs.imp fun h => h)
  · intro p
    constructor
    · intro hp
      rcases List.mem_map.1 hp with ⟨r, hr, hpr⟩
      rw [List.mem_insertionSort] at hr
      rcases List.mem_filter.1 hr with ⟨hrdb, hcond⟩
      simp only [Bool.and_eq_true, beq_iff_eq] at hcond
      exact ⟨r, hrdb, hcond.1, hcond.2, hpr.symm⟩
    · rintro ⟨r, hrdb, hicao, hbok, hp⟩
      refine List.mem_map.2 ⟨r, ?_, hp.symm⟩
      rw [List.mem_insertionSort]
      exact List.mem_filter.2 ⟨hrdb, by simp [hicao, hbok]⟩

/-- A stored snapshot with the uppercased icao `ABC123` (every stored icao
is uppercased on insertion). -/
def traceRowA : Row :=
  { timestamp := 7, icao := "ABC123", callsign := none, lat := 1, lon := 2,
    altitude := some 100, speed := none, track := none, vert_rate := none,
    squawk := none, category := none, aircraft_type := none, rssi := none }

/-- Witness for the trace claim: `trace("abc123")` and `trace("ABC123")`
coincide, and the stored `ABC123` snapshot is returned for both. -/
theorem api_trace_spec_witness :
    api_trace "abc123" none none [traceRowA]
      = api_trace "ABC123" none none [traceRowA] ∧
    tracePointOf traceRowA ∈ api_trace "abc123" none none [traceRowA] := by
  have h := api_trace_spec "abc123" "ABC123" (by decide) none none [traceRowA]
  exact ⟨h.1, (h.2.2 (tracePointOf traceRowA)).2
    ⟨traceRowA, by decide, by decide, rfl, rfl⟩⟩

/-- Unfolded form of `api_recent`. -/
theorem api_recent_def (now : Int) (db : List Row) :
    api_recent now db =
      (((((windowRows now db).map Row.icao).dedup).map
        (fun i => aggFor i (windowRows now db))).insertionSort recentGe).take 50 :=
  rfl

/-- Two snapshots of aircraft `A`: the earlier one sits north-east of and
above the later one, so the group maxima differ from the latest values. -/
def recentRow1 : Row :=
  { timestamp := 0, icao := "A", callsign := none, lat := 10, lon := 20,
    altitude := some 1000, speed := none, track := none, vert_rate := none,
    squawk := none, category := none, aircraft_type := none, rssi := none }

/-- The later snapshot of aircraft `A`, lower and south-west of the first. -/
def recentRow2 : Row :=
  { recentRow1 with timestamp := 100, lat := 5, lon := 6, altitude := some 500 }

/-- Both snapshots of aircraft `A` in one table. -/
def recentCexDb : List Row := [recentRow1, recentRow2]

/-- C2 counterexample: the recent query aggregates with `MAX(lat)`,
`MAX(lon)`, `MAX(altitude)` over the window, so for an aircraft whose two
in-window snapshots are `(lat 10, lon 20, alt 1000)` at time 0 and
`(lat 5, lon 6, alt 500)` at time 100 it reports `(10, 20, 1000)` — not the
latest snapshot's `(5, 6, 500)` as the claim states. -/
theorem api_recent_max_not_latest_cex :
    ((api_recent 100 recentCexDb).map fun rr =>
      (rr.icao, rr.lat, rr.lon, rr.altitude, rr.last_seen, rr.positions))
      = [("A", 10, 20, some 1000, 100, 2)] ∧
    recentCexDb.filter (fun r => decide (r.timestamp = 100)) = [recentRow2] ∧
    (recentRow2.lat, recentRow2.lon, recentRow2.altitude) = (5, 6, some 500) ∧
    ((10 : Int), (20 : Int), (some 1000 : Option Int)) ≠ (5, 6, some 500) :=
  ⟨by decide, by decide, by decide, by decide⟩

/-- C2 (amended): the recent query returns at most 50 rows, ordered by
last-seen descending; every returned row is the aggregate of its icao's
in-window snapshots — maximum lat, maximum lon, maximum altitude (not the
latest snapshot's values), latest timestamp, and position count; and when at
most 50 distinct icaos appear in the trailing hour, every icao with a
snapshot in the window gets exactly such a row. -/
theorem api_recent_spec (now : Int) (db : List Row) :
    (api_recent now db).length ≤ 50 ∧
    List.Pairwise (fun a b : RecentRow => b.last_seen ≤ a.last_seen)
      (api_recent now db) ∧
    (∀ rr ∈ api_recent now db, rr = aggFor rr.icao (windowRows now db)) ∧
    (((windowRows now db).map Row.icao).dedup.length ≤ 50 →
      ∀ r ∈ db, now - 3600 ≤ r.timestamp →
        ∃ rr ∈ api_recent now db, rr.icao = r.icao) := by
  refine ⟨?_, ?_, ?_, ?_⟩
  · rw [api_recent_def, List.length_take]
    exact min_le_left _ _
  · have hs := List.sorted_insertionSort recentGe
      ((((windowRows now db).map Row.icao).dedup).map
        (fun i => aggFor i (windowRows now db)))
    rw [api_recent_def]
    exact List.Pairwise.sublist (List.take_sublist 50 _) hs
  · intro rr hrr
    rw [api_recent_def] at hrr
    have h1 := List.take_subset _ _ hrr
    rw [List.mem_insertionSort] at h1
    rcases List.mem_map.1 h1 with ⟨i, _, hagg⟩
    rw [← hagg]
    rfl
  · intro hlen r hr hwin
    have hw : r ∈ windowRows now db :=
      List.mem_filter.2 ⟨hr, decide_eq_true hwin⟩
    have hico : r.icao ∈ ((windowRows now db).map Row.icao).dedup :=
      List.mem_dedup.2 (List.mem_map_of_mem Row.icao hw)
    refine ⟨aggFor r.icao (windowRows now db), ?_, rfl⟩
    rw [api_recent_def]
    have hlen2 : (((((windowRows now db).map Row.icao).dedup).map
        (fun i => aggFor i (windowRows now db))).insertionSort recentGe).length ≤ 50 := by
      rw [List.length_insertionSort, List.length_map]
      exact hlen
    rw [List.take_of_length_le hlen2, List.mem_insertionSort]
    exact List.mem_map_of_mem _ hico

/-- Witness for the recent-query claim: aircraft `A` has in-window snapshots
and receives a result row. -/
theorem api_recent_spec_witness :
    ∃ rr ∈ api_recent 100 recentCexDb, rr.icao = recentRow1.icao :=
  (api_recent_spec 100 recentCexDb).2.2.2 (by decide) recentRow1 (by decide)
    (by decide)

end EasyADSB
